import Mathlib

/-!
# Verification of the visudo safe-edit session

The repository ships compliance tests for `visudo`
(`test-framework/sudo-compliance-tests/src/visudo.rs`); the safe-edit
controller they exercise is specified in `spec.md` (lock acquisition,
temporary-copy management, editor invocation, validation, recovery prompt
and atomic commit).  This file embeds that controller as a pure Lean
program and proves the testable properties about it.
-/

namespace Visudo

/-- File content, compared byte-for-byte. -/
abbrev Content := String

/-- Modelled from the spec: the PolicyFile data model (§3) — byte content,
owning identity (user/group) and permission bits.  The existence flag is
modelled by wrapping the state in `Option`. -/
structure PolicyFileState where
  content : Content
  owner : String
  group : String
  mode : Nat
  deriving DecidableEq

/-- Modelled from the spec: the three recovery-prompt actions (§4.5).
The input stream of the prompt is modelled as a list of already-recognized
tokens; an exhausted list is end-of-input. -/
inductive Choice where
  | reEdit
  | discardAndExit
  | forceSave
  deriving DecidableEq

/-- Modelled from the spec: `EditOutcome` (§3), one per session.
`AbortedEditorFailure` covers a failure to spawn the editor (never produced
by this model, which assumes the editor can always be spawned);
`AbortedCommitIo` is the Controller-level image of the `IoError` result of the Commit Manager (§4.6). -/
inductive EditOutcome where
  | Committed (newContent : Content)
  | Unchanged
  | DiscardedAfterSyntaxError
  | AbortedMissingTemp
  | AbortedLockBusy
  | AbortedEditorFailure
  | AbortedCommitIo
  deriving DecidableEq

/-- Observable filesystem/lock events of a session, in order.  `writePolicy`
is the atomic replace installing new PolicyFile content; it is the only
event that mutates the PolicyFile. -/
inductive Event where
  | acquireLock
  | materializeTemp
  | invokeEditor
  | writePolicy
  | disposeTemp
  | releaseLock
  deriving DecidableEq

/-- Modelled from the spec: the session environment.  The external editor
(§4.3) is a black box mapping the temp content it was given to the state
of the temp file when it exits (`none` = it deleted the temp path, §4.2
`Missing`) together with its exit status.  The Syntax Validator (§4.4) is
the pass/fail oracle.  `input` is the token stream of the recovery prompt
(§4.5).  `commitFails` injects the `IoError` of the Commit Manager (§4.6). -/
structure SessionEnv where
  progName : String
  policyPath : String
  editor : Content → Option Content × Nat
  validate : Content → Bool
  input : List Choice
  commitFails : Bool

/-- Modelled from the spec: TempCopy path = policy path + fixed suffix
`".tmp"` (§3, §6). -/
def SessionEnv.tempPath (env : SessionEnv) : String :=
  env.policyPath ++ ".tmp"

/-- The observable result of one edit session. -/
structure SessionResult where
  outcome : EditOutcome
  exitCode : Nat
  stderr : List String
  policy : Option PolicyFileState
  tempExists : Bool
  sessionLockHeld : Bool
  editorInvocations : List (List String)
  trace : List Event
  deriving DecidableEq

/-- Modelled from the spec: diagnostic `"<prog>: <path> busy, try again
later"` (§4.1, §6). -/
def busyMsg (env : SessionEnv) : String :=
  env.progName ++ ": " ++ env.policyPath ++ " busy, try again later"

/-- Modelled from the spec: diagnostic `"<prog>: <temp_path> unchanged"`
(§4.6, §6). -/
def unchangedMsg (env : SessionEnv) : String :=
  env.progName ++ ": " ++ env.tempPath ++ " unchanged"

/-- Modelled from the spec: diagnostic `"<prog>: unable to re-open
temporary file (<temp_path>), <policy_path> unchanged"` (§4.2, §6). -/
def missingMsg (env : SessionEnv) : String :=
  env.progName ++ ": unable to re-open temporary file (" ++ env.tempPath
    ++ "), " ++ env.policyPath ++ " unchanged"

/-- Modelled from the spec: on validation failure a message containing the
substring `"syntax error"` is emitted (§4.5, §6). -/
def syntaxErrMsg (env : SessionEnv) : String :=
  env.progName ++ ": " ++ env.policyPath ++ ": " ++ "syntax error"

/-- Modelled from the spec: the prior content of the PolicyFile is its byte
content, or empty if the file did not exist (§4.6). -/
def priorContent (policy : Option PolicyFileState) : Content :=
  match policy with
  | some p => p.content
  | none => ""

/-- Modelled from the spec: a successful commit installs the new content
owned by the privileged identity `root:root` with fixed restrictive
permissions — read-only for owner and group, no access for others (§4.6,
§6: mode `0o440`, rendered `-r--r-----`). -/
def committedPolicy (newContent : Content) : PolicyFileState :=
  { content := newContent, owner := "root", group := "root", mode := 0o440 }

/-- The string `needle` occurs as a contiguous substring of `hay`. -/
def strContains (needle hay : String) : Prop :=
  ∃ a b, hay.data = a ++ needle.data ++ b

/-- Render one octal digit of a permission mode as its `rwx` triple. -/
def rwxBits (m : Nat) : String :=
  (if m % 8 / 4 = 1 then "r" else "-")
    ++ (if m % 4 / 2 = 1 then "w" else "-")
    ++ (if m % 2 = 1 then "x" else "-")

/-- Render a permission mode the way `ls -l` lists a regular file. -/
def modeString (m : Nat) : String :=
  "-" ++ rwxBits (m / 64) ++ rwxBits (m / 8) ++ rwxBits m

/-- Modelled from the spec: the Commit Manager (§4.6).  Byte-for-byte
comparison with the prior content decides whether a rewrite is needed; if
unchanged, no filesystem write occurs and the unchanged diagnostic is
emitted; if changed, the new content is installed by an atomic replace (on
`IoError` nothing is installed and the session is fatal); the temp file is
disposed and the lock released on every path (§4.1, §4.2, §5). -/
def commit (env : SessionEnv) (init : Option PolicyFileState)
    (newContent : Content) (stderrAcc : List String)
    (invocs : List (List String)) (tr : List Event) : SessionResult :=
  if newContent = priorContent init then
    { outcome := .Unchanged, exitCode := 0,
      stderr := stderrAcc ++ [unchangedMsg env],
      policy := init, tempExists := false, sessionLockHeld := false,
      editorInvocations := invocs,
      trace := tr ++ [.disposeTemp, .releaseLock] }
  else if env.commitFails then
    { outcome := .AbortedCommitIo, exitCode := 1,
      stderr := stderrAcc,
      policy := init, tempExists := false, sessionLockHeld := false,
      editorInvocations := invocs,
      trace := tr ++ [.disposeTemp, .releaseLock] }
  else
    { outcome := .Committed newContent, exitCode := 0,
      stderr := stderrAcc,
      policy := some (committedPolicy newContent),
      tempExists := false, sessionLockHeld := false,
      editorInvocations := invocs,
      trace := tr ++ [.writePolicy, .disposeTemp, .releaseLock] }

/-- Modelled from the spec: the edit/validate/recover loop of the
Controller (§2 data flow, §4.3–§4.5).  The editor is run synchronously on
the temp path with arguments `-- <temp_path>`; its exit status is ignored
for control flow (§4.3: a nonzero editor exit does not by itself force a
failure).  After it exits, the temp path is re-opened by name: if missing,
the session aborts (§4.2); otherwise the content is validated.  On
validation failure the recovery prompt reads a token: end-of-input defaults
to discard-and-exit with success status (§4.5), `reEdit` loops back to the
editor with the same TempCopy, `forceSave` bypasses validation.  The temp
file is disposed and the lock released on every exit path (§5). -/
def editLoop (env : SessionEnv) (init : Option PolicyFileState)
    (tempContent : Content) (input : List Choice)
    (stderrAcc : List String) (invocs : List (List String))
    (tr : List Event) : SessionResult :=
  let invocs' := invocs ++ [["--", env.tempPath]]
  let tr' := tr ++ [Event.invokeEditor]
  match (env.editor tempContent).1 with
  | none =>
    { outcome := .AbortedMissingTemp, exitCode := 1,
      stderr := stderrAcc ++ [missingMsg env],
      policy := init, tempExists := false, sessionLockHeld := false,
      editorInvocations := invocs',
      trace := tr' ++ [.disposeTemp, .releaseLock] }
  | some newContent =>
    if env.validate newContent then
      commit env init newContent stderrAcc invocs' tr'
    else
      let stderr' := stderrAcc ++ [syntaxErrMsg env]
      match input with
      | [] =>
        { outcome := .DiscardedAfterSyntaxError, exitCode := 0,
          stderr := stderr',
          policy := init, tempExists := false, sessionLockHeld := false,
          editorInvocations := invocs',
          trace := tr' ++ [.disposeTemp, .releaseLock] }
      | choice :: rest =>
        match choice with
        | .reEdit => editLoop env init newContent rest stderr' invocs' tr'
        | .discardAndExit =>
          { outcome := .DiscardedAfterSyntaxError, exitCode := 0,
            stderr := stderr',
            policy := init, tempExists := false, sessionLockHeld := false,
            editorInvocations := invocs',
            trace := tr' ++ [.disposeTemp, .releaseLock] }
        | .forceSave => commit env init newContent stderr' invocs' tr'

/-- Modelled from the spec: one end-to-end edit session (§2, §4.1).  If the
SessionLock for the policy path is already held, acquisition fails
immediately (`Busy`) and the session terminates with exit status 1 and the
busy diagnostic, touching neither TempCopy nor PolicyFile; otherwise the
lock is acquired, the TempCopy is materialized (seeded from the PolicyFile
or empty) and the edit loop runs. -/
def runSession (env : SessionEnv) (init : Option PolicyFileState)
    (lockAlreadyHeld : Bool) : SessionResult :=
  if lockAlreadyHeld then
    { outcome := .AbortedLockBusy, exitCode := 1,
      stderr := [busyMsg env],
      policy := init, tempExists := false, sessionLockHeld := false,
      editorInvocations := [],
      trace := [] }
  else
    editLoop env init (priorContent init) env.input [] []
      [Event.acquireLock, Event.materializeTemp]

/-- Modelled from the spec: two process invocations contending for the same
PolicyFile path (§5).  The second session starts while the first holds the
SessionLock (the concurrency of the test `errors_if_currently_being_edited`,
sequentialized: the result of the first session is computed from the initial
state with the lock free, the second observes the lock held and the policy
still in its initial state since commit happens only at session end). -/
def runTwoSessions (env1 env2 : SessionEnv)
    (init : Option PolicyFileState) : SessionResult × SessionResult :=
  (runSession env1 init false, runSession env2 init true)

/-- A session environment in which the editor leaves the temp content
untouched and exits 0, everything validates, and the recovery input stream is empty: the no-op edit of the compliance tests. -/
def demoEnv : SessionEnv :=
  { progName := "visudo", policyPath := "/etc/sudoers",
    editor := fun c => (some c, 0), validate := fun _ => true,
    input := [], commitFails := false }

/-- A valid pre-existing `/etc/sudoers` as installed by the test framework
(`SUDOERS_ALL_ALL_NOPASSWD`). -/
def demoPolicy : PolicyFileState :=
  { content := "ALL ALL=(ALL:ALL) NOPASSWD: ALL", owner := "root",
    group := "root", mode := 0o440 }

/-- A session environment whose editor replaces the temp content with a
fixed valid policy line and exits 0 (the editor of
`saves_file_if_no_syntax_errors`). -/
def writerEnv : SessionEnv :=
  { progName := "visudo", policyPath := "/etc/sudoers",
    editor := fun _ => (some "ALL ALL=(ALL:ALL) NOPASSWD: ALL", 0),
    validate := fun _ => true, input := [], commitFails := false }

/-- A session environment whose editor deletes the temp file (`rm $2`, the
editor of `temporary_file_is_deleted_during_edition`). -/
def deleterEnv : SessionEnv :=
  { progName := "visudo", policyPath := "/etc/sudoers",
    editor := fun _ => (none, 0),
    validate := fun _ => true, input := [], commitFails := false }

/-- A session environment whose validator rejects everything and whose
recovery input stream is empty (the non-interactive syntax-error session of
`does_not_save_the_file_if_there_are_syntax_errors`). -/
def rejectAllEnv : SessionEnv :=
  { progName := "visudo", policyPath := "/etc/sudoers",
    editor := fun c => (some c, 0),
    validate := fun _ => false, input := [], commitFails := false }

/-- A session environment whose editor leaves the temp content untouched
but exits with the nonzero status 11 (the editor of
`editor_exits_with_a_nonzero_code`). -/
def exit11Env : SessionEnv :=
  { progName := "visudo", policyPath := "/etc/sudoers",
    editor := fun c => (some c, 11),
    validate := fun _ => true, input := [], commitFails := false }

/-- On every path, `commit` disposes the temp file and then releases the
lock: its trace extends the incoming one with events ending in
`[disposeTemp, releaseLock]`, and the final state holds neither the temp
file nor the lock. -/
theorem commit_exit (env : SessionEnv) (init : Option PolicyFileState)
    (c : Content) (sacc : List String) (invocs : List (List String))
    (tr : List Event) :
    ∃ pre, (commit env init c sacc invocs tr).trace
        = tr ++ pre ++ [Event.disposeTemp, Event.releaseLock]
      ∧ (commit env init c sacc invocs tr).tempExists = false
      ∧ (commit env init c sacc invocs tr).sessionLockHeld = false := by
  unfold commit
  by_cases h1 : c = priorContent init
  · exact ⟨[], by simp [h1]⟩
  · by_cases h2 : env.commitFails
    · exact ⟨[], by simp [h1, h2]⟩
    · exact ⟨[Event.writePolicy], by simp [h1, h2]⟩

/-- On every exit path of the edit loop, the temp file is disposed and then
the lock released. -/
theorem editLoop_exit (env : SessionEnv) (init : Option PolicyFileState) :
    ∀ (input : List Choice) (tc : Content) (sacc : List String)
      (invocs : List (List String)) (tr : List Event),
    ∃ pre, (editLoop env init tc input sacc invocs tr).trace
        = tr ++ pre ++ [Event.disposeTemp, Event.releaseLock]
      ∧ (editLoop env init tc input sacc invocs tr).tempExists = false
      ∧ (editLoop env init tc input sacc invocs tr).sessionLockHeld
          = false := by
  intro input
  induction input with
  | nil =>
    intro tc sacc invocs tr
    unfold editLoop
    rcases h : (env.editor tc).1 with _ | newContent
    · exact ⟨[Event.invokeEditor], by simp⟩
    · simp only
      by_cases hv : env.validate newContent
      · simp only [hv, if_true]
        obtain ⟨pre, hpre, ht, hl⟩ := commit_exit env init newContent sacc
          (invocs ++ [["--", env.tempPath]]) (tr ++ [Event.invokeEditor])
        exact ⟨Event.invokeEditor :: pre, by simp [hpre, ht, hl]⟩
      · exact ⟨[Event.invokeEditor], by simp [hv]⟩
  | cons choice rest ih =>
    intro tc sacc invocs tr
    unfold editLoop
    rcases h : (env.editor tc).1 with _ | newContent
    · exact ⟨[Event.invokeEditor], by simp⟩
    · simp only
      by_cases hv : env.validate newContent
      · simp only [hv, if_true]
        obtain ⟨pre, hpre, ht, hl⟩ := commit_exit env init newContent sacc
          (invocs ++ [["--", env.tempPath]]) (tr ++ [Event.invokeEditor])
        exact ⟨Event.invokeEditor :: pre, by simp [hpre, ht, hl]⟩
      · simp only [hv, if_false]
        cases choice with
        | reEdit =>
          obtain ⟨pre, hpre, ht, hl⟩ := ih newContent
            (sacc ++ [syntaxErrMsg env]) (invocs ++ [["--", env.tempPath]])
            (tr ++ [Event.invokeEditor])
          exact ⟨Event.invokeEditor :: pre, by simp [hpre, ht, hl]⟩
        | discardAndExit => exact ⟨[Event.invokeEditor], by simp⟩
        | forceSave =>
          obtain ⟨pre, hpre, ht, hl⟩ := commit_exit env init newContent
            (sacc ++ [syntaxErrMsg env]) (invocs ++ [["--", env.tempPath]])
            (tr ++ [Event.invokeEditor])
          exact ⟨Event.invokeEditor :: pre, by simp [hpre, ht, hl]⟩

/-- The Commit Manager never invokes the editor: `commit` leaves the
invocation log as it received it. -/
theorem commit_invocations (env : SessionEnv) (init : Option PolicyFileState)
    (c : Content) (sacc : List String) (invocs : List (List String))
    (tr : List Event) :
    (commit env init c sacc invocs tr).editorInvocations = invocs := by
  unfold commit
  by_cases h1 : c = priorContent init
  · simp [h1]
  · by_cases h2 : env.commitFails <;> simp [h1, h2]

/-- Every editor invocation performed by the edit loop passes exactly the
argument list `["--", <temp_path>]`: the loop appends one or more copies of
that list to the invocation log. -/
theorem editLoop_invocations (env : SessionEnv)
    (init : Option PolicyFileState) :
    ∀ (input : List Choice) (tc : Content) (sacc : List String)
      (invocs : List (List String)) (tr : List Event),
    ∃ n, (editLoop env init tc input sacc invocs tr).editorInvocations
      = invocs ++ List.replicate (n + 1) ["--", env.tempPath] := by
  intro input
  induction input with
  | nil =>
    intro tc sacc invocs tr
    unfold editLoop
    rcases h : (env.editor tc).1 with _ | newContent
    · exact ⟨0, by simp⟩
    · simp only
      by_cases hv : env.validate newContent
      · exact ⟨0, by simp [hv, commit_invocations]⟩
      · exact ⟨0, by simp [hv]⟩
  | cons choice rest ih =>
    intro tc sacc invocs tr
    unfold editLoop
    rcases h : (env.editor tc).1 with _ | newContent
    · exact ⟨0, by simp⟩
    · simp only
      by_cases hv : env.validate newContent
      · exact ⟨0, by simp [hv, commit_invocations]⟩
      · simp only [hv, if_false]
        cases choice with
        | reEdit =>
          obtain ⟨n, hn⟩ := ih newContent (sacc ++ [syntaxErrMsg env])
            (invocs ++ [["--", env.tempPath]]) (tr ++ [Event.invokeEditor])
          exact ⟨n + 1, by simp [hn, List.replicate_succ]⟩
        | discardAndExit => exact ⟨0, by simp⟩
        | forceSave => exact ⟨0, by simp [commit_invocations]⟩

/-- C2: if the SessionLock for the policy path is already held by a first
session, the second session terminates with exit code 1, emits exactly the
diagnostic `"<prog>: <policy_path> busy, try again later"`, performs no
filesystem or lock event at all (so it touches neither TempCopy nor
PolicyFile and never invokes the editor), and the result of the first session is
exactly what it would be on its own. -/
theorem visudo_c2_second_session_busy (env1 env2 : SessionEnv)
    (init : Option PolicyFileState) :
    (runTwoSessions env1 env2 init).2.exitCode = 1
    ∧ (runTwoSessions env1 env2 init).2.stderr = [busyMsg env2]
    ∧ (runTwoSessions env1 env2 init).2.policy = init
    ∧ (runTwoSessions env1 env2 init).2.trace = []
    ∧ (runTwoSessions env1 env2 init).2.editorInvocations = []
    ∧ (runTwoSessions env1 env2 init).2.outcome = EditOutcome.AbortedLockBusy
    ∧ (runTwoSessions env1 env2 init).1 = runSession env1 init false := by
  simp [runTwoSessions, runSession]

/-- C7: in every session that gets past lock acquisition the external
editor is invoked at least once, and each invocation passes exactly two
arguments, in order: the end-of-options marker `"--"` and the temp path,
which is the PolicyFile path plus the fixed suffix `".tmp"`. -/
theorem visudo_c7_editor_arguments (env : SessionEnv)
    (init : Option PolicyFileState) :
    (runSession env init false).editorInvocations ≠ []
    ∧ ∀ args ∈ (runSession env init false).editorInvocations,
        args = ["--", env.policyPath ++ ".tmp"] := by
  obtain ⟨n, hn⟩ := editLoop_invocations env init env.input
    (priorContent init) [] [] [Event.acquireLock, Event.materializeTemp]
  have hrun : (runSession env init false).editorInvocations
      = List.replicate (n + 1) ["--", env.policyPath ++ ".tmp"] := by
    unfold runSession
    simpa [SessionEnv.tempPath] using hn
  refine ⟨by simp [hrun], fun args hargs => ?_⟩
  rw [hrun] at hargs
  exact List.eq_of_mem_replicate hargs

/-- Witness for C7 at a concrete session: with the no-op editor over the
test-framework sudoers file, the single recorded invocation is
`["--", "/etc/sudoers.tmp"]`. -/
theorem visudo_c7_editor_arguments_witness :
    (["--", "/etc/sudoers.tmp"] : List String)
      = ["--", demoEnv.policyPath ++ ".tmp"] :=
  (visudo_c7_editor_arguments demoEnv (some demoPolicy)).2
    ["--", "/etc/sudoers.tmp"] (by decide)

/-- C9: on every exit path of a session that got past lock acquisition the
temp file is disposed of and then the SessionLock is released — the event
trace is lock acquisition and temp materialization, then the work of the
session, then exactly `disposeTemp` followed by `releaseLock` — and no session
(busy ones included) ends still holding the lock or the temp file. -/
theorem visudo_c9_cleanup_on_every_exit_path (env : SessionEnv)
    (init : Option PolicyFileState) :
    (∃ pre, (runSession env init false).trace
        = Event.acquireLock :: Event.materializeTemp ::
            (pre ++ [Event.disposeTemp, Event.releaseLock]))
    ∧ (∀ b, (runSession env init b).tempExists = false)
    ∧ (∀ b, (runSession env init b).sessionLockHeld = false) := by
  obtain ⟨pre, hpre, ht, hl⟩ := editLoop_exit env init env.input
    (priorContent init) [] [] [Event.acquireLock, Event.materializeTemp]
  refine ⟨⟨pre, ?_⟩, fun b => ?_, fun b => ?_⟩
  · unfold runSession
    simpa using hpre
  · cases b
    · simpa [runSession] using ht
    · simp [runSession]
  · cases b
    · simpa [runSession] using hl
    · simp [runSession]

/-- If the editor leaves content the validator accepts, the edit loop goes
straight to the Commit Manager, whatever the recovery input stream holds. -/
theorem editLoop_valid (env : SessionEnv) (init : Option PolicyFileState)
    (tc : Content) (input : List Choice) (sacc : List String)
    (invocs : List (List String)) (tr : List Event) (c : Content)
    (hed : (env.editor tc).1 = some c) (hval : env.validate c = true) :
    editLoop env init tc input sacc invocs tr
      = commit env init c sacc (invocs ++ [["--", env.tempPath]])
          (tr ++ [Event.invokeEditor]) := by
  cases input with
  | nil => simp [editLoop, hed, hval]
  | cons choice rest => simp [editLoop, hed, hval]

/-- If the temp path no longer exists when re-opened after the editor
exits, the edit loop aborts at once, whatever the recovery input stream
holds. -/
theorem editLoop_missing (env : SessionEnv) (init : Option PolicyFileState)
    (tc : Content) (input : List Choice) (sacc : List String)
    (invocs : List (List String)) (tr : List Event)
    (hed : (env.editor tc).1 = none) :
    editLoop env init tc input sacc invocs tr
      = { outcome := .AbortedMissingTemp, exitCode := 1,
          stderr := sacc ++ [missingMsg env],
          policy := init, tempExists := false, sessionLockHeld := false,
          editorInvocations := invocs ++ [["--", env.tempPath]],
          trace := (tr ++ [Event.invokeEditor])
            ++ [Event.disposeTemp, Event.releaseLock] } := by
  cases input with
  | nil => simp [editLoop, hed]
  | cons choice rest => simp [editLoop, hed]

/-- A string contains every string it was built by appending to. -/
theorem strContains_append_left (p n : String) : strContains n (p ++ n) :=
  ⟨p.data, [], by simp [String.data_append]⟩

/-- C1: in every session in which the editor leaves validated content that
differs byte-for-byte from the prior content of the PolicyFile (empty if
the file did not exist) and the commit write succeeds, the PolicyFile after
the session holds exactly the new content: write-then-read is the identity
on the committed content, and the session succeeds with outcome
`Committed`. -/
theorem visudo_c1_roundtrip (env : SessionEnv)
    (init : Option PolicyFileState) (newC : Content)
    (hed : (env.editor (priorContent init)).1 = some newC)
    (hval : env.validate newC = true)
    (hne : newC ≠ priorContent init)
    (hio : env.commitFails = false) :
    (runSession env init false).policy = some (committedPolicy newC)
    ∧ ((runSession env init false).policy.map PolicyFileState.content)
        = some newC
    ∧ (runSession env init false).outcome = EditOutcome.Committed newC
    ∧ (runSession env init false).exitCode = 0 := by
  have h : runSession env init false
      = commit env init newC [] [["--", env.tempPath]]
          ([Event.acquireLock, Event.materializeTemp]
            ++ [Event.invokeEditor]) := by
    unfold runSession
    simp [editLoop_valid env init (priorContent init) env.input [] [] _
      newC hed hval]
  rw [h]
  unfold commit
  simp [hne, hio, committedPolicy]

/-- Witness for C1 at a concrete session: PolicyFile absent, the editor
writes a valid policy line; afterwards the PolicyFile holds exactly that
line. -/
theorem visudo_c1_roundtrip_witness :
    (runSession writerEnv none false).policy
        = some (committedPolicy "ALL ALL=(ALL:ALL) NOPASSWD: ALL")
    ∧ ((runSession writerEnv none false).policy.map PolicyFileState.content)
        = some "ALL ALL=(ALL:ALL) NOPASSWD: ALL"
    ∧ (runSession writerEnv none false).outcome
        = EditOutcome.Committed "ALL ALL=(ALL:ALL) NOPASSWD: ALL"
    ∧ (runSession writerEnv none false).exitCode = 0 :=
  visudo_c1_roundtrip writerEnv none "ALL ALL=(ALL:ALL) NOPASSWD: ALL"
    rfl rfl (by decide) rfl

/-- C3: in every session in which the temp path no longer exists when
re-opened after the editor exits, the session aborts with exit code 1,
emits exactly the diagnostic `"<prog>: unable to re-open temporary file
(<temp_path>), <policy_path> unchanged"`, and leaves the PolicyFile
byte-identical to its state before the session. -/
theorem visudo_c3_missing_temp_aborts (env : SessionEnv)
    (init : Option PolicyFileState)
    (hed : (env.editor (priorContent init)).1 = none) :
    (runSession env init false).exitCode = 1
    ∧ (runSession env init false).stderr = [missingMsg env]
    ∧ (runSession env init false).policy = init
    ∧ (runSession env init false).outcome
        = EditOutcome.AbortedMissingTemp := by
  unfold runSession
  simp [editLoop_missing env init (priorContent init) env.input [] [] _ hed]

/-- Witness for C3 at a concrete session: the editor deletes the temp file
(`rm $2`); the session exits 1 with the missing-temp diagnostic and the
PolicyFile untouched. -/
theorem visudo_c3_missing_temp_aborts_witness :
    (runSession deleterEnv (some demoPolicy) false).exitCode = 1
    ∧ (runSession deleterEnv (some demoPolicy) false).stderr
        = [missingMsg deleterEnv]
    ∧ (runSession deleterEnv (some demoPolicy) false).policy
        = some demoPolicy
    ∧ (runSession deleterEnv (some demoPolicy) false).outcome
        = EditOutcome.AbortedMissingTemp :=
  visudo_c3_missing_temp_aborts deleterEnv (some demoPolicy) rfl

/-- C4: in every session in which the edited content fails validation and
the recovery input stream is at end-of-input, the session discards: the
PolicyFile is byte-identical to before, a diagnostic containing the
substring `"syntax error"` is emitted, and the process exit status is 0
(success, not failure). -/
theorem visudo_c4_discard_on_eof (env : SessionEnv)
    (init : Option PolicyFileState) (c : Content)
    (hed : (env.editor (priorContent init)).1 = some c)
    (hval : env.validate c = false)
    (hin : env.input = []) :
    (runSession env init false).outcome
        = EditOutcome.DiscardedAfterSyntaxError
    ∧ (runSession env init false).policy = init
    ∧ (runSession env init false).exitCode = 0
    ∧ ∃ m ∈ (runSession env init false).stderr,
        strContains "syntax error" m := by
  unfold runSession
  rw [hin]
  refine ⟨by simp [editLoop, hed, hval], by simp [editLoop, hed, hval],
    by simp [editLoop, hed, hval], ⟨syntaxErrMsg env, ?_, ?_⟩⟩
  · simp [editLoop, hed, hval]
  · exact strContains_append_left _ _

/-- Witness for C4 at a concrete session: the editor writes content the
validator rejects and no interactive input is supplied; the session
discards with exit 0 and a "syntax error" diagnostic. -/
theorem visudo_c4_discard_on_eof_witness :
    (runSession rejectAllEnv (some demoPolicy) false).outcome
        = EditOutcome.DiscardedAfterSyntaxError
    ∧ (runSession rejectAllEnv (some demoPolicy) false).policy
        = some demoPolicy
    ∧ (runSession rejectAllEnv (some demoPolicy) false).exitCode = 0
    ∧ ∃ m ∈ (runSession rejectAllEnv (some demoPolicy) false).stderr,
        strContains "syntax error" m :=
  visudo_c4_discard_on_eof rejectAllEnv (some demoPolicy)
    (priorContent (some demoPolicy)) rfl rfl rfl

/-- C5 as stated fails on the modelled control flow: when the post-edit
temp content equals the prior content byte-for-byte but the validator
rejects it (the pre-existing PolicyFile is itself invalid and the editor
leaves it untouched), the session takes the discard path — no write occurs
and the exit status is still 0, but the emitted diagnostic is the
syntax-error one, not `"<prog>: <temp_path> unchanged"`. -/
theorem visudo_c5_counterexample :
    (rejectAllEnv.editor (priorContent (some demoPolicy))).1
        = some (priorContent (some demoPolicy))
    ∧ unchangedMsg rejectAllEnv
        ∉ (runSession rejectAllEnv (some demoPolicy) false).stderr := by
  refine ⟨rfl, ?_⟩
  decide

/-- C5 (amended): in every session in which the post-edit temp content
passes validation and equals the prior PolicyFile content byte-for-byte,
no filesystem write to the PolicyFile occurs (its state is unchanged and no
`writePolicy` event happens), the diagnostic `"<prog>: <temp_path>
unchanged"` is emitted to error output, and the session exits with
success. -/
theorem visudo_c5_unchanged_no_write (env : SessionEnv)
    (init : Option PolicyFileState) (c : Content)
    (hed : (env.editor (priorContent init)).1 = some c)
    (hval : env.validate c = true)
    (heq : c = priorContent init) :
    (runSession env init false).policy = init
    ∧ Event.writePolicy ∉ (runSession env init false).trace
    ∧ (runSession env init false).stderr = [unchangedMsg env]
    ∧ (runSession env init false).exitCode = 0
    ∧ (runSession env init false).outcome = EditOutcome.Unchanged := by
  have h : runSession env init false
      = commit env init c [] [["--", env.tempPath]]
          ([Event.acquireLock, Event.materializeTemp]
            ++ [Event.invokeEditor]) := by
    unfold runSession
    simp [editLoop_valid env init (priorContent init) env.input [] [] _
      c hed hval]
  rw [h]
  unfold commit
  simp [heq]

/-- Witness for amended C5 at a concrete session: the no-op editor over an
existing valid sudoers file; nothing is written and the unchanged
diagnostic is the only error output. -/
theorem visudo_c5_unchanged_no_write_witness :
    (runSession demoEnv (some demoPolicy) false).policy = some demoPolicy
    ∧ Event.writePolicy
        ∉ (runSession demoEnv (some demoPolicy) false).trace
    ∧ (runSession demoEnv (some demoPolicy) false).stderr
        = [unchangedMsg demoEnv]
    ∧ (runSession demoEnv (some demoPolicy) false).exitCode = 0
    ∧ (runSession demoEnv (some demoPolicy) false).outcome
        = EditOutcome.Unchanged :=
  visudo_c5_unchanged_no_write demoEnv (some demoPolicy)
    (priorContent (some demoPolicy)) rfl rfl rfl

/-- A commit whose outcome is `Committed c` installed exactly the policy
state `committedPolicy c`. -/
theorem commit_committed (env : SessionEnv) (init : Option PolicyFileState)
    (c : Content) (sacc : List String) (invocs : List (List String))
    (tr : List Event) (c' : Content)
    (h : (commit env init c sacc invocs tr).outcome
      = EditOutcome.Committed c') :
    (commit env init c sacc invocs tr).policy
      = some (committedPolicy c') := by
  unfold commit at h ⊢
  by_cases h1 : c = priorContent init
  · simp [h1] at h
  · by_cases h2 : env.commitFails
    · simp [h1, h2] at h
    · simp [h1, h2] at h ⊢
      rw [h]

/-- An edit loop whose outcome is `Committed c` installed exactly the
policy state `committedPolicy c`. -/
theorem editLoop_committed (env : SessionEnv)
    (init : Option PolicyFileState) :
    ∀ (input : List Choice) (tc : Content) (sacc : List String)
      (invocs : List (List String)) (tr : List Event) (c : Content),
    (editLoop env init tc input sacc invocs tr).outcome
        = EditOutcome.Committed c →
    (editLoop env init tc input sacc invocs tr).policy
        = some (committedPolicy c) := by
  intro input
  induction input with
  | nil =>
    intro tc sacc invocs tr c h
    unfold editLoop at h ⊢
    rcases hed : (env.editor tc).1 with _ | newContent
    · simp [hed] at h
    · simp only [hed] at h ⊢
      by_cases hv : env.validate newContent
      · simp only [hv, if_true] at h ⊢
        exact commit_committed env init newContent sacc _ _ c h
      · simp [hv] at h
  | cons choice rest ih =>
    intro tc sacc invocs tr c h
    unfold editLoop at h ⊢
    rcases hed : (env.editor tc).1 with _ | newContent
    · simp [hed] at h
    · simp only [hed] at h ⊢
      by_cases hv : env.validate newContent
      · simp only [hv, if_true] at h ⊢
        exact commit_committed env init newContent sacc _ _ c h
      · simp only [hv, if_false] at h ⊢
        cases choice with
        | reEdit => exact ih newContent _ _ _ c h
        | discardAndExit => simp at h
        | forceSave => exact commit_committed env init newContent _ _ _ c h

/-- C6: in every session in which the PolicyFile did not exist beforehand
and the session commits successfully, the resulting PolicyFile is owned by
the privileged identity `root:root` with mode `0o440` — read-only for
owner and group, no access for others, no write or execute bits — rendered
by a directory listing as `-r--r-----`. -/
theorem visudo_c6_fresh_file_perms (env : SessionEnv) (c : Content)
    (h : (runSession env none false).outcome = EditOutcome.Committed c) :
    (runSession env none false).policy = some (committedPolicy c)
    ∧ (committedPolicy c).owner = "root"
    ∧ (committedPolicy c).group = "root"
    ∧ (committedPolicy c).mode = 0o440
    ∧ modeString (committedPolicy c).mode = "-r--r-----" := by
  unfold runSession at h ⊢
  simp only [Bool.false_eq_true, if_false] at h ⊢
  exact ⟨editLoop_committed env none env.input (priorContent none) [] []
    [Event.acquireLock, Event.materializeTemp] c h, rfl, rfl, rfl,
    by show modeString 0o440 = "-r--r-----"; decide⟩

/-- Witness for C6 at a concrete session: PolicyFile absent, the editor
writes a valid line; the created file is root:root with mode 0o440. -/
theorem visudo_c6_fresh_file_perms_witness :
    (runSession writerEnv none false).policy
        = some (committedPolicy "ALL ALL=(ALL:ALL) NOPASSWD: ALL")
    ∧ (committedPolicy "ALL ALL=(ALL:ALL) NOPASSWD: ALL").owner = "root"
    ∧ (committedPolicy "ALL ALL=(ALL:ALL) NOPASSWD: ALL").group = "root"
    ∧ (committedPolicy "ALL ALL=(ALL:ALL) NOPASSWD: ALL").mode = 0o440
    ∧ modeString (committedPolicy "ALL ALL=(ALL:ALL) NOPASSWD: ALL").mode
        = "-r--r-----" :=
  visudo_c6_fresh_file_perms writerEnv "ALL ALL=(ALL:ALL) NOPASSWD: ALL"
    (by decide)

/-- When the editor always hands back exactly the content it was given, the
edit loop ends with success status and the PolicyFile untouched, whatever
the validator and input stream do. -/
theorem editLoop_identity_editor (env : SessionEnv)
    (init : Option PolicyFileState)
    (hed : ∀ c, (env.editor c).1 = some c) :
    ∀ (input : List Choice) (sacc : List String)
      (invocs : List (List String)) (tr : List Event),
    (editLoop env init (priorContent init) input sacc invocs tr).exitCode
        = 0
    ∧ (editLoop env init (priorContent init) input sacc invocs tr).policy
        = init := by
  intro input
  induction input with
  | nil =>
    intro sacc invocs tr
    unfold editLoop
    rw [hed (priorContent init)]
    by_cases hv : env.validate (priorContent init)
    · simp only [hv, if_true]
      unfold commit
      simp
    · simp [hv]
  | cons choice rest ih =>
    intro sacc invocs tr
    unfold editLoop
    rw [hed (priorContent init)]
    by_cases hv : env.validate (priorContent init)
    · simp only [hv, if_true]
      unfold commit
      simp
    · simp only [hv, if_false]
      cases choice with
      | reEdit => exact ih _ _ _
      | discardAndExit => simp
      | forceSave =>
        unfold commit
        simp

/-- C8: in every session in which the editor exits with a nonzero status
(such as 11) without modifying the temp content, the session still reports
a success exit status at the process level and the PolicyFile is unchanged
from before the session: a nonzero editor exit does not by itself force a
failure outcome. -/
theorem visudo_c8_nonzero_editor_exit (env : SessionEnv)
    (init : Option PolicyFileState)
    (hed : ∀ c, (env.editor c).1 = some c)
    (_hnz : ∀ c, (env.editor c).2 ≠ 0) :
    (runSession env init false).exitCode = 0
    ∧ (runSession env init false).policy = init := by
  unfold runSession
  simp only [Bool.false_eq_true, if_false]
  exact editLoop_identity_editor env init hed env.input [] []
    [Event.acquireLock, Event.materializeTemp]

/-- Witness for C8 at a concrete session: the editor exits 11 leaving the
temp content alone; the session exits 0 and the sudoers file is exactly
what it was. -/
theorem visudo_c8_nonzero_editor_exit_witness :
    (runSession exit11Env (some demoPolicy) false).exitCode = 0
    ∧ (runSession exit11Env (some demoPolicy) false).policy
        = some demoPolicy :=
  visudo_c8_nonzero_editor_exit exit11Env (some demoPolicy)
    (fun _ => rfl) (fun _ => by change (11 : Nat) ≠ 0; decide)

end Visudo
